import Mathlib

/-!
Shallow embedding of the supashield RLS-audit core: the probe engine and its
error classification (src/unnamed/part_005, the `core/simulate.ts` module),
the connection gatekeeper (src/src/core/db.ts), the static policy linter
(src/src/core/lint.ts), the snapshot diff engine (src/src/shared/diff.ts) and
the test-result aggregation (src/src/commands/test.command.ts,
src/src/shared/test-utils.ts).  Database driver calls are modelled by an
environment that supplies each call's outcome (a value or a driver error);
JavaScript `try`/`catch`/`finally` is modelled with `Except`, with the
`finally` clause's own failure replacing the return value, as in JavaScript.
-/

namespace Supashield

/-! ## Strings: JavaScript `String.prototype.includes` -/

/-- `listHasLead pat l` is true when `pat` occurs at the head of `l`. -/
def listHasLead : List Char → List Char → Bool
  | [], _ => true
  | _ :: _, [] => false
  | p :: ps, c :: cs => p == c && listHasLead ps cs

/-- `listHasPart pat l` is true when `pat` occurs contiguously anywhere in `l`. -/
def listHasPart (pat : List Char) : List Char → Bool
  | [] => listHasLead pat []
  | c :: cs => listHasLead pat (c :: cs) || listHasPart pat cs

/-- JavaScript `s.includes(pat)`: substring test. -/
def strIncludes (s pat : String) : Bool :=
  listHasPart pat.data s.data

/-- JavaScript `m?.includes(pat)` on an optional string: `undefined` is falsy. -/
def optMessageIncludes (m : Option String) (pat : String) : Bool :=
  match m with
  | none => false
  | some s => strIncludes s pat

/-! ## Shared types (src/src/shared/types.ts) -/

/-- `DatabaseOperation` (types.ts line 107). -/
inductive DatabaseOperation
  | SELECT
  | INSERT
  | UPDATE
  | DELETE
deriving DecidableEq

/-- `ProbeResult` (types.ts line 108): the probe engine's result union. -/
inductive ProbeResult
  | ALLOW
  | DENY
  | ERROR
deriving DecidableEq

/-- `SUPPORTED_DATABASE_OPERATIONS` (constants.ts). -/
def SUPPORTED_DATABASE_OPERATIONS : List DatabaseOperation :=
  [.SELECT, .INSERT, .UPDATE, .DELETE]

/-- `ColumnIntrospectionResult` (types.ts lines 111-117). -/
structure ColumnIntrospectionResult where
  column_name : String
  data_type : String
  is_nullable : Bool
  column_default : Option String
  is_primary_key : Bool
deriving DecidableEq

/-- `DatabaseRolePrivileges` (types.ts lines 119-125). -/
structure DatabaseRolePrivileges where
  role_name : String
  has_global_dml : Bool
  has_create_privilege : Bool
  table_specific_privileges : List String
  is_superuser : Bool
deriving DecidableEq

/-- A driver error as the probe engine inspects it: the optional SQLSTATE
`code` and the optional `message` (a JavaScript `Error` need not carry
either property). -/
structure DbError where
  code : Option String
  message : Option String
deriving DecidableEq

/-! ## SQL error codes (src/src/utils/constants.ts lines 54-59) -/

def SQL_ERROR_CODES_PERMISSION_DENIED : String := "42501"
def SQL_ERROR_CODES_DUPLICATE_KEY : String := "23505"

/-! ## Error classification (part_005 lines 428-454) -/

/-- `isRlsPolicyViolationError` (part_005 lines 443-447). -/
def isRlsPolicyViolationError (error : DbError) : Bool :=
  error.code == some SQL_ERROR_CODES_PERMISSION_DENIED ||
    optMessageIncludes error.message "permission denied" ||
    optMessageIncludes error.message "policy"

/-- `isDuplicateKeyError` (part_005 lines 452-454). -/
def isDuplicateKeyError (error : DbError) : Bool :=
  error.code == some SQL_ERROR_CODES_DUPLICATE_KEY

/-- `interpretDatabaseErrorAsProbeResult` (part_005 lines 428-438). -/
def interpretDatabaseErrorAsProbeResult (error : DbError) : ProbeResult :=
  if isRlsPolicyViolationError error then
    .DENY
  else if isDuplicateKeyError error then
    .ALLOW
  else
    .ALLOW

/-! ## Probe engine (part_005, `core/simulate.ts`)

Each database call's outcome is supplied by an environment.  `AttemptEnv`
holds the responses to the queries issued while attempting the operation,
`DbEnv` additionally holds the outcomes of connection acquisition, the
transaction-control statements, and session configuration. -/

/-- JWT claims as the engine inspects them: only the `role` claim is read. -/
structure JwtClaims where
  role : Option String
deriving DecidableEq

/-- `POSTGRESQL_SYSTEM_ROLES` (constants.ts lines 92-96), the two entries read. -/
def POSTGRESQL_SYSTEM_ROLES_ANONYMOUS : String := "anon"
def POSTGRESQL_SYSTEM_ROLES_AUTHENTICATED : String := "authenticated"

/-- `determinePostgresqlRoleFromJwtClaims` (part_005 lines 90-95). -/
def determinePostgresqlRoleFromJwtClaims (jwtClaims : JwtClaims) : String :=
  if jwtClaims.role == some "authenticated" then
    POSTGRESQL_SYSTEM_ROLES_AUTHENTICATED
  else
    POSTGRESQL_SYSTEM_ROLES_ANONYMOUS

/-- The guard of `setLegacyRoleConfigurationIfNeeded` (part_005 line 104):
JavaScript `jwtClaims.role && jwtClaims.role !== 'authenticated'`
(the empty string is falsy). -/
def setLegacyNeeded (jwtClaims : JwtClaims) : Bool :=
  match jwtClaims.role with
  | none => false
  | some r => r != "" && r != "authenticated"

/-- Environment for the queries of `attemptDatabaseOperationWithRlsEvaluation`:
outcomes for the operation-specific statements.  `selectRows` is the number
of rows of `SELECT * ... LIMIT 1`; `pkColumns` the primary-key introspection;
`pkRowFound` whether `SELECT pk ... LIMIT 1` saw a row; `mutationRowCount`
the driver `rowCount` of the UPDATE/DELETE (absent models SQL `null`);
`insertColumns` the column introspection and `insertExec` the INSERT itself.
`freshUuid` stands for `randomUUID()`. -/
structure AttemptEnv where
  selectRows : Except DbError Nat
  insertColumns : Except DbError (List ColumnIntrospectionResult)
  insertExec : Except DbError Unit
  pkColumns : Except DbError (List String)
  pkRowFound : Except DbError Bool
  mutationRowCount : Except DbError (Option Nat)
  freshUuid : String

/-- `createFullyQualifiedTableName` (part_005 lines 166-168). -/
def createFullyQualifiedTableName (schema table : String) : String :=
  "\"" ++ schema ++ "\".\"" ++ table ++ "\""

/-- `COLUMN_TYPE_TEST_VALUES` (constants.ts lines 80-89); `UUID_RANDOM` takes
the generated UUID as a parameter. -/
def COLUMN_TYPE_TEST_VALUES_UUID : String := "auth.uid()"
def COLUMN_TYPE_TEST_VALUES_UUID_RANDOM (uuid : String) : String := "'" ++ uuid ++ "'"
def COLUMN_TYPE_TEST_VALUES_TEXT : String := "'test'"
def COLUMN_TYPE_TEST_VALUES_INTEGER : String := "1"
def COLUMN_TYPE_TEST_VALUES_BOOLEAN : String := "true"
def COLUMN_TYPE_TEST_VALUES_DEFAULT : String := "DEFAULT"

/-- `generateTestValueForColumn` (part_005 lines 397-423). -/
def generateTestValueForColumn (freshUuid : String)
    (column : ColumnIntrospectionResult) : String :=
  if column.column_name == "id" && column.data_type == "uuid" then
    COLUMN_TYPE_TEST_VALUES_UUID
  else if column.column_name == "user_id" && column.data_type == "uuid" then
    COLUMN_TYPE_TEST_VALUES_UUID
  else if column.data_type == "uuid" then
    COLUMN_TYPE_TEST_VALUES_UUID_RANDOM freshUuid
  else if strIncludes column.data_type "text" || strIncludes column.data_type "varchar" then
    COLUMN_TYPE_TEST_VALUES_TEXT
  else if strIncludes column.data_type "int" || strIncludes column.data_type "numeric" then
    COLUMN_TYPE_TEST_VALUES_INTEGER
  else if strIncludes column.data_type "bool" then
    COLUMN_TYPE_TEST_VALUES_BOOLEAN
  else
    COLUMN_TYPE_TEST_VALUES_DEFAULT

/-- `generateInsertStatementComponents` (part_005 lines 378-392): columns with
a default are skipped, the rest get a synthesized value. -/
def generateInsertStatementComponents (freshUuid : String)
    (columns : List ColumnIntrospectionResult) : List String × List String :=
  columns.foldl
    (fun acc column =>
      if column.column_default ≠ none then acc
      else
        (acc.1 ++ ["\"" ++ column.column_name ++ "\""],
         acc.2 ++ [generateTestValueForColumn freshUuid column]))
    ([], [])

/-- The message of the error thrown by `findTargetRowForMutation` when the
table has no primary key (part_005 lines 222-224). -/
def noPkErrorMessage (fullyQualifiedTableName : String) : String :=
  "Cannot test UPDATE/DELETE on table " ++ fullyQualifiedTableName ++
    " because it has no primary key."

/-- `findTargetRowForMutation` (part_005 lines 211-238): introspects primary
keys, throws when there are none, otherwise looks for one visible row and
returns its primary-key columns (`none` when no row is visible). -/
def findTargetRowForMutation (env : AttemptEnv)
    (fullyQualifiedTableName : String) : Except DbError (Option (List String)) := do
  let pkColumns ← env.pkColumns
  if pkColumns.length = 0 then
    throw { code := none, message := some (noPkErrorMessage fullyQualifiedTableName) }
  else do
    let found ← env.pkRowFound
    if found then pure (some pkColumns) else pure none

/-- `executeSelectOperationAndEvaluateResult` (part_005 lines 173-181). -/
def executeSelectOperationAndEvaluateResult (env : AttemptEnv) :
    Except DbError ProbeResult := do
  let rows ← env.selectRows
  pure (if rows > 0 then .ALLOW else .DENY)

/-- `executeInsertOperationAndEvaluateResult` (part_005 lines 243-263). -/
def executeInsertOperationAndEvaluateResult (env : AttemptEnv) :
    Except DbError ProbeResult := do
  let columns ← env.insertColumns
  if columns.length = 0 then
    pure .ERROR
  else do
    let _components := generateInsertStatementComponents env.freshUuid columns
    let _ ← env.insertExec
    pure .ALLOW

/-- `executeUpdateOperationAndEvaluateResult` (part_005 lines 269-302). -/
def executeUpdateOperationAndEvaluateResult (env : AttemptEnv)
    (fullyQualifiedTableName : String) : Except DbError ProbeResult := do
  let targetRow ← findTargetRowForMutation env fullyQualifiedTableName
  match targetRow with
  | none => pure .DENY
  | some _pkColumns => do
      let rowCount ← env.mutationRowCount
      pure (if rowCount.getD 0 > 0 then .ALLOW else .DENY)

/-- `executeDeleteOperationAndEvaluateResult` (part_005 lines 308-337). -/
def executeDeleteOperationAndEvaluateResult (env : AttemptEnv)
    (fullyQualifiedTableName : String) : Except DbError ProbeResult := do
  let targetRow ← findTargetRowForMutation env fullyQualifiedTableName
  match targetRow with
  | none => pure .DENY
  | some _pkColumns => do
      let rowCount ← env.mutationRowCount
      pure (if rowCount.getD 0 > 0 then .ALLOW else .DENY)

/-- The `try` block of `attemptDatabaseOperationWithRlsEvaluation`
(part_005 lines 141-157): dispatch on the operation. -/
def attemptBody (env : AttemptEnv) (schema table : String)
    (operation : DatabaseOperation) : Except DbError ProbeResult :=
  let fullyQualifiedTableName := createFullyQualifiedTableName schema table
  match operation with
  | .SELECT => executeSelectOperationAndEvaluateResult env
  | .INSERT => executeInsertOperationAndEvaluateResult env
  | .UPDATE => executeUpdateOperationAndEvaluateResult env fullyQualifiedTableName
  | .DELETE => executeDeleteOperationAndEvaluateResult env fullyQualifiedTableName

/-- `attemptDatabaseOperationWithRlsEvaluation` (part_005 lines 133-161):
any error thrown while attempting the operation is classified by
`interpretDatabaseErrorAsProbeResult`. -/
def attemptDatabaseOperationWithRlsEvaluation (env : AttemptEnv)
    (schema table : String) (operation : DatabaseOperation) : ProbeResult :=
  match attemptBody env schema table operation with
  | .ok result => result
  | .error e => interpretDatabaseErrorAsProbeResult e

/-- Environment for one invocation of the probe engine: the outcome of
connection acquisition, of each transaction-control and session-configuration
statement, of the operation attempt, and of the final rollback. -/
structure DbEnv where
  connectErr : Option DbError
  beginErr : Option DbError
  setClaimsErr : Option DbError
  setRoleErr : Option DbError
  setLegacyErr : Option DbError
  savepointErr : Option DbError
  attempt : AttemptEnv
  rollbackToSavepointErr : Option DbError
  rollbackErr : Option DbError

/-- One driver call that yields no data: succeeds or throws. -/
def runStep (outcome : Option DbError) : Except DbError Unit :=
  match outcome with
  | some e => throw e
  | none => pure ()

/-- The `try` block of `executeRlsPolicyProbeForOperation` (part_005
lines 23-36): BEGIN, install claims and role, savepoint, attempt the
operation, rollback to the savepoint, return the classification. -/
def probeBody (env : DbEnv) (schema table : String)
    (operation : DatabaseOperation) (jwtClaims : JwtClaims) :
    Except DbError ProbeResult := do
  runStep env.beginErr
  runStep env.setClaimsErr
  let _roleToSet := determinePostgresqlRoleFromJwtClaims jwtClaims
  runStep env.setRoleErr
  if setLegacyNeeded jwtClaims then runStep env.setLegacyErr
  runStep env.savepointErr
  let result := attemptDatabaseOperationWithRlsEvaluation env.attempt schema table operation
  runStep env.rollbackToSavepointErr
  pure result

/-- `executeRlsPolicyProbeForOperation` (part_005 lines 14-44).
`pool.connect()` happens before the `try`, so its failure propagates; the
`catch` turns any error of the body into `ERROR`; the `finally` issues the
unconditional ROLLBACK, and in JavaScript an exception thrown inside
`finally` replaces the function's return value, so a failing final rollback
also propagates. -/
def executeRlsPolicyProbeForOperation (env : DbEnv) (schema table : String)
    (operation : DatabaseOperation) (jwtClaims : JwtClaims) :
    Except DbError ProbeResult :=
  match env.connectErr with
  | some e => .error e
  | none =>
      let caught : ProbeResult :=
        match probeBody env schema table operation jwtClaims with
        | .ok result => result
        | .error _ => .ERROR
      match env.rollbackErr with
      | some e => .error e
      | none => .ok caught

/-- Whether a probe invocation returned a `ProbeResult` to its caller
(`false` when an exception propagated instead). -/
def probeReturned (x : Except DbError ProbeResult) : Bool :=
  match x with
  | .ok _ => true
  | .error _ => false

/-! ## Connection gatekeeper (src/src/core/db.ts) -/

/-- `shouldRejectRoleForSafetyReasons` (db.ts lines 114-117). -/
def shouldRejectRoleForSafetyReasons (privileges : DatabaseRolePrivileges) : Bool :=
  privileges.is_superuser || privileges.has_global_dml || privileges.has_create_privilege

/-- The `reason` computed by `createUnsafeRoleError` (db.ts lines 122-127). -/
def unsafeRoleReason (privileges : DatabaseRolePrivileges) : String :=
  if privileges.is_superuser then "it is a superuser."
  else "it has dangerous global privileges."

/-- The message of the error built by `createUnsafeRoleError`
(db.ts lines 122-131). -/
def createUnsafeRoleError (privileges : DatabaseRolePrivileges) : String :=
  "Role \"" ++ privileges.role_name ++ "\" is unsafe for testing because " ++
    unsafeRoleReason privileges ++
    " Use a dedicated, non-superuser role with only table-specific DML privileges for testing."

/-- `validateDatabaseRolePrivileges` (db.ts lines 51-66): throws the unsafe
role error exactly when the rejection predicate holds. -/
def validateDatabaseRolePrivileges (privileges : DatabaseRolePrivileges) :
    Except String Unit :=
  if shouldRejectRoleForSafetyReasons privileges then
    .error (createUnsafeRoleError privileges)
  else
    .ok ()

/-- Whether the gatekeeper accepted the role. -/
def gatekeeperAccepted (x : Except String Unit) : Bool :=
  match x with
  | .ok _ => true
  | .error _ => false

/-! ## Static policy linter (src/src/core/lint.ts) -/

inductive LintSeverity
  | CRITICAL
  | HIGH
  | MEDIUM
  | LOW
deriving DecidableEq

/-- `PolicyLintData` (lint.ts lines 5-13). -/
structure PolicyLintData where
  schema : String
  table : String
  policy_name : String
  command : String
  using_expression : Option String
  with_check_expression : Option String
  roles : List String
deriving DecidableEq

/-- `LintIssue` (lint.ts lines 15-22). -/
structure LintIssue where
  severity : LintSeverity
  check_id : String
  policy : String
  issue : String
  expression : Option String
  fix : String
deriving DecidableEq

/-- The `schema.table.policy_name` label used in every lint issue. -/
def policyFqn (policy : PolicyLintData) : String :=
  policy.schema ++ "." ++ policy.table ++ "." ++ policy.policy_name

/-- JavaScript `policy.using_expression || undefined`: the empty string is
falsy and collapses to `undefined`. -/
def jsOrUndefined (o : Option String) : Option String :=
  match o with
  | none => none
  | some s => if s = "" then none else some s

/-- The `ALWAYS_TRUE_USING` check (lint.ts lines 32-50): fires when the
trimmed USING expression is literally `true` or `(true)`; an absent
expression makes both comparisons false. -/
def alwaysTrueUsingCheck (policy : PolicyLintData) : Option LintIssue :=
  match policy.using_expression with
  | none => none
  | some e =>
      let expr := e.trim
      if expr = "true" ∨ expr = "(true)" then
        some
          { severity := .CRITICAL
            check_id := "ALWAYS_TRUE_USING"
            policy := policyFqn policy
            issue := "USING expression is literally 'true' - allows unrestricted access"
            expression := jsOrUndefined policy.using_expression
            fix := "Add proper row filtering, e.g., USING (auth.uid() = user_id)" }
      else none

/-- The `NO_AUTH_UID_CHECK` check (lint.ts lines 69-87): for SELECT policies,
the USING expression defaults to the empty string when absent
(`policy.using_expression || ''`), and the issue fires when `auth.uid()` is
absent from it and it is not literally `true` or `(true)`. -/
def noAuthUidCheck (policy : PolicyLintData) : Option LintIssue :=
  if policy.command ≠ "SELECT" then none
  else
    let expr := policy.using_expression.getD ""
    if strIncludes expr "auth.uid()" = false ∧ expr ≠ "true" ∧ expr ≠ "(true)" then
      some
        { severity := .HIGH
          check_id := "NO_AUTH_UID_CHECK"
          policy := policyFqn policy
          issue := "SELECT policy doesn't verify user identity"
          expression := jsOrUndefined policy.using_expression
          fix := "Consider adding auth.uid() check if this table contains user data" }
    else none

/-! ## Snapshot diff engine (src/src/shared/diff.ts) -/

/-- `PolicySnapshot` (types.ts lines 22-28), as the ordered key/value maps a
JavaScript object holds: table key to scenario name to operation to result. -/
abbrev OperationOutcomes := List (DatabaseOperation × ProbeResult)
abbrev ScenarioOutcomes := List (String × OperationOutcomes)
abbrev PolicySnapshot := List (String × ScenarioOutcomes)

/-- `previous[tableKey]?.[scenarioName]?.[op]` (diff.ts line 37). -/
def lookupOutcome (s : PolicySnapshot) (tableKey scenarioName : String)
    (op : DatabaseOperation) : Option ProbeResult := do
  let scenarios ← (s.find? (fun e => e.1 = tableKey)).map (·.2)
  let operations ← (scenarios.find? (fun e => e.1 = scenarioName)).map (·.2)
  ((operations.find? (fun e => e.1 = op)).map (·.2))

/-- Rendering of an operation in diff messages. -/
def opName : DatabaseOperation → String
  | .SELECT => "SELECT"
  | .INSERT => "INSERT"
  | .UPDATE => "UPDATE"
  | .DELETE => "DELETE"

/-- Rendering of a probe result in diff messages. -/
def probeResultName : ProbeResult → String
  | .ALLOW => "ALLOW"
  | .DENY => "DENY"
  | .ERROR => "ERROR"

/-- The `message` prefix built for each entry (diff.ts line 39). -/
def entryMessage (tableKey scenarioName : String) (op : DatabaseOperation) : String :=
  "  - " ++ tableKey ++ " -> " ++ scenarioName ++ " -> " ++ opName op

/-- `SnapshotComparisonResult` (diff.ts lines 6-11). -/
structure SnapshotComparisonResult where
  isIdentical : Bool
  leaks : List String
  regressions : List String
  newlyIntroduced : List String
deriving DecidableEq

/-- The body of the innermost loop of `compareSnapshots` (diff.ts
lines 34-53), processing one `(operation, currentResult)` entry of the
current snapshot under the enclosing `tableKey` and `scenarioName`. -/
def compareStep (previous : PolicySnapshot) (tableKey scenarioName : String)
    (acc : SnapshotComparisonResult) (entry : DatabaseOperation × ProbeResult) :
    SnapshotComparisonResult :=
  let op := entry.1
  let currentResult := entry.2
  let previousResult := lookupOutcome previous tableKey scenarioName op
  let message := entryMessage tableKey scenarioName op
  match previousResult with
  | none =>
      { acc with
        newlyIntroduced :=
          acc.newlyIntroduced ++ [message ++ " (is now " ++ probeResultName currentResult ++ ")"]
        isIdentical := false }
  | some previousValue =>
      if currentResult ≠ previousValue then
        if currentResult = .ALLOW ∧ previousValue = .DENY then
          { acc with
            leaks := acc.leaks ++ [message ++ " (changed from DENY to ALLOW)"]
            isIdentical := false }
        else
          { acc with
            regressions :=
              acc.regressions ++
                [message ++ " (changed from " ++ probeResultName previousValue ++ " to " ++
                  probeResultName currentResult ++ ")"]
            isIdentical := false }
      else acc

/-- The initial accumulator of `compareSnapshots` (diff.ts lines 25-30). -/
def initialComparisonResult : SnapshotComparisonResult :=
  { isIdentical := true, leaks := [], regressions := [], newlyIntroduced := [] }

/-- `compareSnapshots` (diff.ts lines 21-59): the three nested `for ... in`
loops over the current snapshot. -/
def compareSnapshots (previous current : PolicySnapshot) : SnapshotComparisonResult :=
  current.foldl
    (fun acc tableEntry =>
      tableEntry.2.foldl
        (fun acc scenarioEntry =>
          scenarioEntry.2.foldl (compareStep previous tableEntry.1 scenarioEntry.1) acc)
        acc)
    initialComparisonResult

/-- All `(tableKey, scenarioName, operation, result)` entries of a snapshot,
in iteration order. -/
def snapshotEntries (s : PolicySnapshot) :
    List (String × String × DatabaseOperation × ProbeResult) :=
  s.flatMap (fun tableEntry =>
    tableEntry.2.flatMap (fun scenarioEntry =>
      scenarioEntry.2.map (fun opEntry =>
        (tableEntry.1, scenarioEntry.1, opEntry.1, opEntry.2))))

/-- Message contributed to `newlyIntroduced` by one current entry, if any:
the previous snapshot has no outcome at the entry's key. -/
def newEntryMessage (previous : PolicySnapshot)
    (e : String × String × DatabaseOperation × ProbeResult) : Option String :=
  if lookupOutcome previous e.1 e.2.1 e.2.2.1 = none then
    some (entryMessage e.1 e.2.1 e.2.2.1 ++ " (is now " ++ probeResultName e.2.2.2 ++ ")")
  else none

/-- Message contributed to `leaks` by one current entry, if any: previous
outcome `DENY`, current outcome `ALLOW`. -/
def leakEntryMessage (previous : PolicySnapshot)
    (e : String × String × DatabaseOperation × ProbeResult) : Option String :=
  if lookupOutcome previous e.1 e.2.1 e.2.2.1 = some .DENY ∧ e.2.2.2 = .ALLOW then
    some (entryMessage e.1 e.2.1 e.2.2.1 ++ " (changed from DENY to ALLOW)")
  else none

/-- Message contributed to `regressions` by one current entry, if any: some
previous outcome exists, the outcome changed, and the change is not the
`DENY` to `ALLOW` leak transition. -/
def regressionEntryMessage (previous : PolicySnapshot)
    (e : String × String × DatabaseOperation × ProbeResult) : Option String :=
  match lookupOutcome previous e.1 e.2.1 e.2.2.1 with
  | none => none
  | some previousValue =>
      if e.2.2.2 ≠ previousValue ∧ ¬(e.2.2.2 = .ALLOW ∧ previousValue = .DENY) then
        some (entryMessage e.1 e.2.1 e.2.2.1 ++ " (changed from " ++
          probeResultName previousValue ++ " to " ++ probeResultName e.2.2.2 ++ ")")
      else none

/-- Whether one current entry is a no-change entry (contributes to no bucket). -/
def entryUnchanged (previous : PolicySnapshot)
    (e : String × String × DatabaseOperation × ProbeResult) : Bool :=
  lookupOutcome previous e.1 e.2.1 e.2.2.1 = some e.2.2.2

/-- Restriction of `previous` to the `(tableKey, scenarioName, operation)`
keys of `current`: every operation entry whose full key is absent from
`current` is dropped. -/
def restrictToCurrentKeys (previous current : PolicySnapshot) : PolicySnapshot :=
  previous.map (fun tableEntry =>
    (tableEntry.1,
      tableEntry.2.map (fun scenarioEntry =>
        (scenarioEntry.1,
          scenarioEntry.2.filter (fun opEntry =>
            (lookupOutcome current tableEntry.1 scenarioEntry.1 opEntry.1).isSome)))))

/-- A snapshot with the uniqueness JavaScript objects guarantee: no duplicate
table keys, scenario names, or operations. -/
def wellFormedSnapshot (s : PolicySnapshot) : Prop :=
  (s.map Prod.fst).Nodup ∧
    ∀ tableEntry ∈ s,
      (tableEntry.2.map Prod.fst).Nodup ∧
        ∀ scenarioEntry ∈ tableEntry.2, (scenarioEntry.2.map Prod.fst).Nodup

instance (s : PolicySnapshot) : Decidable (wellFormedSnapshot s) := by
  unfold wellFormedSnapshot
  infer_instance

/-! ## Test orchestrator result construction (src/src/commands/test.command.ts
lines 460-508) and counter aggregation (src/src/shared/test-utils.ts
lines 5-17) -/

/-- The result union of the detailed probe (`executeRlsPolicyProbeDetailed`)
as consumed by `executeTestScenarioForAllOperations`, which compares the
`result` field against `SKIPPED` as well as the expected value. -/
inductive DetailedProbeResult
  | ALLOW
  | DENY
  | ERROR
  | SKIPPED
deriving DecidableEq

/-- The `{ result, reason }` record returned by the detailed probe. -/
structure DetailedProbeOutcome where
  result : DetailedProbeResult
  reason : Option String
deriving DecidableEq

/-- `TestScenario` as read by the orchestrator: its name, claims, and the
per-operation expected outcomes (absent means the operation is not tested). -/
structure TestScenario where
  name : String
  jwt_claims : JwtClaims
  expected : DatabaseOperation → Option DetailedProbeResult

/-- `TestResultDetail` (types.ts lines 95-104), with the `actual` field
carrying the detailed probe result. -/
structure TestResultDetail where
  table_key : String
  scenario_name : String
  operation : DatabaseOperation
  expected : DetailedProbeResult
  actual : DetailedProbeResult
  passed : Bool
  error_message : Option String
  execution_time_ms : Nat
deriving DecidableEq

/-- `TestResults` counters (test.command.ts lines 348-356). -/
structure TestResults where
  total_tests : Nat
  passed_tests : Nat
  failed_tests : Nat
  error_tests : Nat
  skipped_tests : Nat
  execution_time_ms : Nat
  detailed_results : List TestResultDetail
deriving DecidableEq

/-- The initial `TestResults` record (test.command.ts lines 348-356). -/
def initialTestResults : TestResults :=
  { total_tests := 0, passed_tests := 0, failed_tests := 0, error_tests := 0,
    skipped_tests := 0, execution_time_ms := 0, detailed_results := [] }

/-- `updateTestCounters` (test-utils.ts lines 5-17). -/
def updateTestCounters (results : TestResults) (result : TestResultDetail) :
    TestResults :=
  let results := { results with total_tests := results.total_tests + 1 }
  if result.passed then
    { results with passed_tests := results.passed_tests + 1 }
  else if result.actual = .ERROR then
    { results with error_tests := results.error_tests + 1 }
  else
    { results with failed_tests := results.failed_tests + 1 }

/-- One `TestResultDetail` as built by `executeTestScenarioForAllOperations`
(test.command.ts lines 493-504): `passed` is the equality of actual and
expected, overridden to `false` when the probe was `SKIPPED`. -/
def mkTestResultDetail (schema table : String) (scenario : TestScenario)
    (operation : DatabaseOperation) (expected : DetailedProbeResult)
    (probeResult : DetailedProbeOutcome) : TestResultDetail :=
  let passed := probeResult.result = expected
  { table_key := schema ++ "." ++ table
    scenario_name := scenario.name
    operation := operation
    expected := expected
    actual := probeResult.result
    passed := if probeResult.result = .SKIPPED then false else passed
    error_message := probeResult.reason
    execution_time_ms := 0 }

/-- `executeTestScenarioForAllOperations` (test.command.ts lines 460-508):
operations without an expected outcome are skipped, each remaining probe
outcome becomes one `TestResultDetail`.  The probe's outcome per operation is
supplied by `probeOutcomes`. -/
def executeTestScenarioForAllOperations
    (probeOutcomes : DatabaseOperation → DetailedProbeOutcome)
    (schema table : String) (scenario : TestScenario)
    (operations : List DatabaseOperation) : List TestResultDetail :=
  operations.foldl
    (fun results operation =>
      match scenario.expected operation with
      | none => results
      | some expected =>
          results ++
            [mkTestResultDetail schema table scenario operation expected
              (probeOutcomes operation)])
    []

/-- The counter-update loop of `executeAllPolicyTestsForConfiguration`
(test.command.ts lines 403-405). -/
def aggregateTestCounters (details : List TestResultDetail) : TestResults :=
  details.foldl updateTestCounters initialTestResults

/-! ## Concrete fixtures used by witnesses and counterexamples -/

/-- Claims of an anonymous caller: no `role` claim. -/
def anonClaims : JwtClaims := { role := none }

/-- An attempt environment in which every query succeeds against an empty
table with primary key `id`. -/
def plainAttemptEnv : AttemptEnv :=
  { selectRows := .ok 0
    insertColumns := .ok []
    insertExec := .ok ()
    pkColumns := .ok ["id"]
    pkRowFound := .ok false
    mutationRowCount := .ok (some 0)
    freshUuid := "00000000-0000-0000-0000-000000000000" }

/-- Attempt environment of a table whose primary-key introspection returns no
columns. -/
def noPkAttemptEnv : AttemptEnv := { plainAttemptEnv with pkColumns := .ok [] }

/-- A probe environment in which every driver call succeeds. -/
def allStepsSucceedEnv : DbEnv :=
  { connectErr := none
    beginErr := none
    setClaimsErr := none
    setRoleErr := none
    setLegacyErr := none
    savepointErr := none
    attempt := plainAttemptEnv
    rollbackToSavepointErr := none
    rollbackErr := none }

/-- A probe environment against a table with no primary key. -/
def noPkProbeEnv : DbEnv := { allStepsSucceedEnv with attempt := noPkAttemptEnv }

/-- A driver error with neither a recognised SQLSTATE nor a policy-related
message, as raised when the connection drops. -/
def connectionLostError : DbError :=
  { code := none, message := some "Connection terminated unexpectedly" }

/-- A probe environment whose final `ROLLBACK` (the `finally` clause) fails. -/
def rollbackFailsEnv : DbEnv :=
  { allStepsSucceedEnv with rollbackErr := some connectionLostError }

/-- A probe environment whose `BEGIN` fails. -/
def beginFailsEnv : DbEnv :=
  { allStepsSucceedEnv with beginErr := some connectionLostError }

/-- A driver error with SQLSTATE 42501 (insufficient privilege). -/
def permissionDeniedError : DbError := { code := some "42501", message := none }

/-- A driver error with SQLSTATE 23505 (unique violation). -/
def duplicateKeyError : DbError := { code := some "23505", message := none }

/-- A role whose only dangerous privilege is global DML. -/
def roleWithGlobalDml : DatabaseRolePrivileges :=
  { role_name := "app_tester", has_global_dml := true, has_create_privilege := false,
    table_specific_privileges := [], is_superuser := false }

/-- A role whose only dangerous privilege is CREATE on the database. -/
def roleWithCreate : DatabaseRolePrivileges :=
  { role_name := "app_tester", has_global_dml := false, has_create_privilege := true,
    table_specific_privileges := [], is_superuser := false }

/-- A superuser role. -/
def superuserRole : DatabaseRolePrivileges :=
  { role_name := "postgres", has_global_dml := false, has_create_privilege := false,
    table_specific_privileges := [], is_superuser := true }

/-- A SELECT policy that carries no USING expression. -/
def selectPolicyWithoutUsing : PolicyLintData :=
  { schema := "public", table := "users", policy_name := "users_select",
    command := "SELECT", using_expression := none, with_check_expression := none,
    roles := [] }

/-- Detailed probe outcome of a structurally skipped mutation probe. -/
def skippedProbeOutcome : DetailedProbeOutcome :=
  { result := .SKIPPED, reason := some "no primary key" }

/-- A probe that reports `SKIPPED` for every operation. -/
def skippedProbeEnv : DatabaseOperation → DetailedProbeOutcome :=
  fun _ => skippedProbeOutcome

/-- A scenario that only tests UPDATE, expecting `ALLOW`. -/
def nopkScenario : TestScenario :=
  { name := "authenticated"
    jwt_claims := { role := some "authenticated" }
    expected := fun operation => if operation = .UPDATE then some .ALLOW else none }

/-- Snapshot in which anonymous SELECT on `public.posts` was denied. -/
def snapshotPostsDeny : PolicySnapshot :=
  [("public.posts", [("anonymous", [(.SELECT, .DENY)])])]

/-- Snapshot in which anonymous SELECT on `public.posts` is allowed. -/
def snapshotPostsAllow : PolicySnapshot :=
  [("public.posts", [("anonymous", [(.SELECT, .ALLOW)])])]

/-- A previous snapshot holding a stale table and a stale operation that are
absent from `snapshotPostsAllow`. -/
def snapshotWithStaleEntries : PolicySnapshot :=
  [("public.posts", [("anonymous", [(.SELECT, .DENY), (.INSERT, .DENY)])]),
   ("public.removed", [("anonymous", [(.SELECT, .ALLOW)])])]

/-! ## Lemmas about the diff engine -/

theorem foldl_flatMap {α β γ : Type} (l : List α) (g : α → List β) (f : γ → β → γ)
    (init : γ) :
    (l.flatMap g).foldl f init = l.foldl (fun acc a => (g a).foldl f acc) init := by
  induction l generalizing init with
  | nil => rfl
  | cons a l ih => simp [List.foldl_append, ih]

/-- `compareSnapshots` is the fold of `compareStep` over the flattened entry
list of the current snapshot. -/
theorem compareSnapshots_eq_foldl_entries (previous current : PolicySnapshot) :
    compareSnapshots previous current =
      (snapshotEntries current).foldl
        (fun acc e => compareStep previous e.1 e.2.1 acc e.2.2)
        initialComparisonResult := by
  unfold compareSnapshots snapshotEntries
  rw [foldl_flatMap]
  congr 1
  funext acc tableEntry
  rw [foldl_flatMap]
  congr 1
  funext acc' scenarioEntry
  rw [List.foldl_map]

/-- Folding `compareStep` appends, to each bucket, exactly the messages its
per-entry message function yields, and conjoins `isIdentical` with all
entries being unchanged. -/
theorem compareFold_buckets (previous : PolicySnapshot)
    (l : List (String × String × DatabaseOperation × ProbeResult))
    (acc : SnapshotComparisonResult) :
    l.foldl (fun acc e => compareStep previous e.1 e.2.1 acc e.2.2) acc =
      { isIdentical := acc.isIdentical && l.all (entryUnchanged previous)
        leaks := acc.leaks ++ l.filterMap (leakEntryMessage previous)
        regressions := acc.regressions ++ l.filterMap (regressionEntryMessage previous)
        newlyIntroduced := acc.newlyIntroduced ++ l.filterMap (newEntryMessage previous) } := by
  induction l generalizing acc with
  | nil => simp
  | cons e l ih =>
      rw [List.foldl_cons, ih]
      rcases hl : lookupOutcome previous e.1 e.2.1 e.2.2.1 with _ | p
      · simp [compareStep, hl, entryUnchanged, newEntryMessage, leakEntryMessage,
          regressionEntryMessage, List.append_assoc]
      · rcases hc : e.2.2.2 with _ | _ | _ <;> cases p <;>
          simp [compareStep, hl, hc, entryUnchanged, newEntryMessage, leakEntryMessage,
            regressionEntryMessage, List.append_assoc]

/-- An entry is unchanged exactly when it contributes to none of the three
buckets. -/
theorem entryUnchanged_iff (previous : PolicySnapshot)
    (e : String × String × DatabaseOperation × ProbeResult) :
    entryUnchanged previous e = true ↔
      (newEntryMessage previous e = none ∧ leakEntryMessage previous e = none ∧
        regressionEntryMessage previous e = none) := by
  unfold entryUnchanged newEntryMessage leakEntryMessage regressionEntryMessage
  rcases hl : lookupOutcome previous e.1 e.2.1 e.2.2.1 with _ | p
  · simp [hl]
  · rcases hc : e.2.2.2 with _ | _ | _ <;> cases p <;> simp [hl, hc]

/-- The leak bucket of `compareSnapshots`, characterized entrywise. -/
theorem compareSnapshots_leaks (previous current : PolicySnapshot) :
    (compareSnapshots previous current).leaks =
      (snapshotEntries current).filterMap (leakEntryMessage previous) := by
  rw [compareSnapshots_eq_foldl_entries, compareFold_buckets]
  simp [initialComparisonResult]

/-- The regression bucket of `compareSnapshots`, characterized entrywise. -/
theorem compareSnapshots_regressions (previous current : PolicySnapshot) :
    (compareSnapshots previous current).regressions =
      (snapshotEntries current).filterMap (regressionEntryMessage previous) := by
  rw [compareSnapshots_eq_foldl_entries, compareFold_buckets]
  simp [initialComparisonResult]

/-- The newly-introduced bucket of `compareSnapshots`, characterized
entrywise. -/
theorem compareSnapshots_newlyIntroduced (previous current : PolicySnapshot) :
    (compareSnapshots previous current).newlyIntroduced =
      (snapshotEntries current).filterMap (newEntryMessage previous) := by
  rw [compareSnapshots_eq_foldl_entries, compareFold_buckets]
  simp [initialComparisonResult]

/-- `isIdentical`, characterized entrywise. -/
theorem compareSnapshots_isIdentical (previous current : PolicySnapshot) :
    (compareSnapshots previous current).isIdentical =
      (snapshotEntries current).all (entryUnchanged previous) := by
  rw [compareSnapshots_eq_foldl_entries, compareFold_buckets]
  simp [initialComparisonResult]

/-- A successful nested lookup names an actual entry of the snapshot. -/
theorem lookupOutcome_mem (s : PolicySnapshot) (tableKey scenarioName : String)
    (op : DatabaseOperation) (v : ProbeResult)
    (h : lookupOutcome s tableKey scenarioName op = some v) :
    (tableKey, scenarioName, op, v) ∈ snapshotEntries s := by
  simp only [lookupOutcome, Option.bind_eq_bind, Option.bind_eq_some,
    Option.map_eq_some'] at h
  obtain ⟨scenarios, ⟨te, hte, hte2⟩, operations, ⟨se, hse, hse2⟩, oe, hoe, hoe2⟩ := h
  have htk : te.1 = tableKey := by
    have := List.find?_some hte
    simpa using this
  have hsc : se.1 = scenarioName := by
    have := List.find?_some hse
    simpa using this
  have hop : oe.1 = op := by
    have := List.find?_some hoe
    simpa using this
  refine List.mem_flatMap.mpr ⟨te, List.mem_of_find?_eq_some hte, ?_⟩
  refine List.mem_flatMap.mpr ⟨se, ?_, ?_⟩
  · rw [hte2]
    exact List.mem_of_find?_eq_some hse
  · refine List.mem_map.mpr ⟨oe, ?_, ?_⟩
    · rw [hse2]
      exact List.mem_of_find?_eq_some hoe
    · rw [htk, hsc, hop, hoe2]

/-- `find?` commutes with a `filter` whose predicate holds on every element
the search predicate accepts. -/
theorem find?_filter_congr {α : Type} (p q : α → Bool) (l : List α)
    (h : ∀ a ∈ l, p a = true → q a = true) :
    (l.filter q).find? p = l.find? p := by
  induction l with
  | nil => rfl
  | cons a l ih =>
      have htail : ∀ b ∈ l, p b = true → q b = true :=
        fun b hb hpb => h b (List.mem_cons_of_mem a hb) hpb
      by_cases hp : p a = true
      · have hq : q a = true := h a (List.mem_cons_self a l) hp
        rw [List.filter_cons_of_pos hq, List.find?_cons_of_pos _ hp,
          List.find?_cons_of_pos _ hp]
      · have hp' : ¬p a = true := hp
        by_cases hq : q a = true
        · rw [List.filter_cons_of_pos hq, List.find?_cons_of_neg _ hp',
            List.find?_cons_of_neg _ hp']
          exact ih htail
        · rw [List.filter_cons_of_neg (by simpa using hq)]
          rw [List.find?_cons_of_neg _ hp']
          exact ih htail

/-- `find?` on a list mapped by a key-preserving function. -/
theorem find?_map_keyed {κ β γ : Type} [DecidableEq κ] (l : List (κ × β))
    (G : κ × β → γ) (k : κ) :
    (l.map (fun t => (t.1, G t))).find? (fun e => e.1 = k) =
      (l.find? (fun e => e.1 = k)).map (fun t => (t.1, G t)) := by
  induction l with
  | nil => rfl
  | cons a l ih =>
      by_cases hk : a.1 = k
      · rw [List.map_cons, List.find?_cons_of_pos _ (by simpa using hk),
          List.find?_cons_of_pos _ (by simpa using hk)]
        rfl
      · rw [List.map_cons, List.find?_cons_of_neg _ (by simpa using hk),
          List.find?_cons_of_neg _ (by simpa using hk)]
        exact ih

/-- With unique keys, `find?` at the key of a member returns that member. -/
theorem find?_eq_of_mem_nodup {κ β : Type} [DecidableEq κ] (l : List (κ × β)) (k : κ)
    (b : β) (hmem : (k, b) ∈ l) (hnd : (l.map Prod.fst).Nodup) :
    l.find? (fun e => e.1 = k) = some (k, b) := by
  induction l with
  | nil => cases hmem
  | cons a l ih =>
      have hnd' : a.1 ∉ l.map Prod.fst ∧ (l.map Prod.fst).Nodup := by
        rw [List.map_cons, List.nodup_cons] at hnd
        exact hnd
      rcases List.mem_cons.mp hmem with heq | hmem'
      · rw [← heq]
        rw [List.find?_cons_of_pos _ (by simp)]
      · have hk : ¬a.1 = k := by
          intro hk
          exact hnd'.1 (hk ▸ List.mem_map.mpr ⟨(k, b), hmem', rfl⟩)
        rw [List.find?_cons_of_neg _ (by simpa using hk)]
        exact ih hmem' hnd'.2

/-- In a well-formed snapshot, every entry is recovered by the nested lookup. -/
theorem lookupOutcome_of_entry (current : PolicySnapshot)
    (hwf : wellFormedSnapshot current)
    {e : String × String × DatabaseOperation × ProbeResult}
    (he : e ∈ snapshotEntries current) :
    lookupOutcome current e.1 e.2.1 e.2.2.1 = some e.2.2.2 := by
  obtain ⟨te, hte, hin⟩ := List.mem_flatMap.mp he
  obtain ⟨se, hse, hin2⟩ := List.mem_flatMap.mp hin
  obtain ⟨oe, hoe, heq⟩ := List.mem_map.mp hin2
  subst heq
  obtain ⟨hnd1, hrest⟩ := hwf
  obtain ⟨hnd2, hnd3f⟩ := hrest te hte
  have hnd3 := hnd3f se hse
  unfold lookupOutcome
  rw [find?_eq_of_mem_nodup current te.1 te.2 hte hnd1]
  simp only [Option.map_some', Option.bind_eq_bind, Option.some_bind]
  rw [find?_eq_of_mem_nodup te.2 se.1 se.2 hse hnd2]
  simp only [Option.map_some', Option.bind_eq_bind, Option.some_bind]
  rw [find?_eq_of_mem_nodup se.2 oe.1 oe.2 hoe hnd3]
  rfl

/-- Restricting the previous snapshot to the keys of the current one does not
change any lookup at a key the current snapshot has. -/
theorem lookupOutcome_restrict (previous current : PolicySnapshot)
    (tableKey scenarioName : String) (op : DatabaseOperation)
    (h : (lookupOutcome current tableKey scenarioName op).isSome = true) :
    lookupOutcome (restrictToCurrentKeys previous current) tableKey scenarioName op =
      lookupOutcome previous tableKey scenarioName op := by
  unfold lookupOutcome restrictToCurrentKeys
  rw [find?_map_keyed]
  cases hf1 : previous.find? (fun e => e.1 = tableKey) with
  | none => rfl
  | some te =>
      have htk : te.1 = tableKey := by
        have := List.find?_some hf1
        simpa using this
      simp only [Option.map_some', Option.bind_eq_bind, Option.some_bind]
      rw [find?_map_keyed]
      cases hf2 : te.2.find? (fun e => e.1 = scenarioName) with
      | none => rfl
      | some se =>
          have hsc : se.1 = scenarioName := by
            have := List.find?_some hf2
            simpa using this
          simp only [Option.map_some', Option.bind_eq_bind, Option.some_bind]
          rw [find?_filter_congr]
          intro opEntry _ hpe
          have hope : opEntry.1 = op := by simpa using hpe
          rw [htk, hsc, hope]
          exact h

/-- `compareSnapshots` reads the previous snapshot only through lookups at
keys of the current snapshot. -/
theorem compareStep_foldl_congr (prevA prevB : PolicySnapshot)
    (l : List (String × String × DatabaseOperation × ProbeResult))
    (h : ∀ e ∈ l,
      lookupOutcome prevA e.1 e.2.1 e.2.2.1 = lookupOutcome prevB e.1 e.2.1 e.2.2.1)
    (acc : SnapshotComparisonResult) :
    l.foldl (fun acc e => compareStep prevA e.1 e.2.1 acc e.2.2) acc =
      l.foldl (fun acc e => compareStep prevB e.1 e.2.1 acc e.2.2) acc := by
  induction l generalizing acc with
  | nil => rfl
  | cons e l ih =>
      rw [List.foldl_cons, List.foldl_cons]
      have hstep : compareStep prevA e.1 e.2.1 acc e.2.2 =
          compareStep prevB e.1 e.2.1 acc e.2.2 := by
        simp only [compareStep, h e (List.mem_cons_self e l)]
      rw [hstep]
      exact ih (fun a ha => h a (List.mem_cons_of_mem e ha)) _

/-! ## Claim theorems -/

/-- Claim C1: the spec says an UPDATE or DELETE probe on a table with no
primary-key columns returns `SKIPPED` with the reason "no primary key -
mutation probe would be ambiguous".  The code instead throws inside
`findTargetRowForMutation`, the generic classifier
`interpretDatabaseErrorAsProbeResult` catches the error, and since its
message carries neither a policy SQLSTATE nor a policy-related substring the
probe reports `ALLOW`; `ProbeResult` (types.ts line 108) has no `SKIPPED`
value at all.  This theorem evaluates the probe engine on such a table. -/
theorem noPkMutationProbeClassifiedAllow :
    executeRlsPolicyProbeForOperation noPkProbeEnv "public" "nopk" .UPDATE anonClaims =
      .ok .ALLOW ∧
    executeRlsPolicyProbeForOperation noPkProbeEnv "public" "nopk" .DELETE anonClaims =
      .ok .ALLOW := by
  constructor <;> rfl

/-- Claim C2 counterexample: a probe whose final rollback (the `finally`
clause) fails does not return a `ProbeResult` at all - the exception
propagates to the caller, contrary to the claim that every exception becomes
an `ERROR` or `SKIPPED` outcome. -/
theorem probeEngineRollbackFailurePropagates :
    probeReturned
      (executeRlsPolicyProbeForOperation rollbackFailsEnv "public" "todos" .SELECT
        anonClaims) = false := by
  rfl

/-- Claim C2, amended: when connection acquisition and the final rollback
succeed, every probe invocation returns exactly one of `ALLOW`, `DENY`,
`ERROR` (there is no `SKIPPED` value in `ProbeResult`), and every exception
raised in between is absorbed; exceptions during connection acquisition or
the final rollback propagate to the caller. -/
theorem probeEngineTotalityAfterConnect (env : DbEnv) (schema table : String)
    (operation : DatabaseOperation) (jwtClaims : JwtClaims)
    (hconnect : env.connectErr = none) (hrollback : env.rollbackErr = none) :
    executeRlsPolicyProbeForOperation env schema table operation jwtClaims = .ok .ALLOW ∨
    executeRlsPolicyProbeForOperation env schema table operation jwtClaims = .ok .DENY ∨
    executeRlsPolicyProbeForOperation env schema table operation jwtClaims = .ok .ERROR := by
  simp only [executeRlsPolicyProbeForOperation, hconnect, hrollback]
  cases hp : probeBody env schema table operation jwtClaims with
  | ok result => cases result <;> simp
  | error e => simp

/-- Witness for `probeEngineTotalityAfterConnect` at a concrete environment. -/
theorem probeEngineTotalityAfterConnectWitness :
    allStepsSucceedEnv.connectErr = none ∧ allStepsSucceedEnv.rollbackErr = none ∧
    (executeRlsPolicyProbeForOperation allStepsSucceedEnv "public" "todos" .SELECT
        anonClaims = .ok .ALLOW ∨
      executeRlsPolicyProbeForOperation allStepsSucceedEnv "public" "todos" .SELECT
        anonClaims = .ok .DENY ∨
      executeRlsPolicyProbeForOperation allStepsSucceedEnv "public" "todos" .SELECT
        anonClaims = .ok .ERROR) :=
  ⟨rfl, rfl,
    probeEngineTotalityAfterConnect allStepsSucceedEnv "public" "todos" .SELECT anonClaims
      rfl rfl⟩

/-- Claim C3: an attempt-level error with SQLSTATE 42501 or a message
containing "permission denied" or "policy" classifies `DENY`; otherwise
SQLSTATE 23505 classifies `ALLOW`; every other attempt-level error classifies
`ALLOW`; and an exception escaping the probe body yields `ERROR` from the
engine (when the connection and the final rollback succeed). -/
theorem errorClassificationMatchesSpec (e : DbError) :
    ((e.code = some "42501" ∨ optMessageIncludes e.message "permission denied" = true ∨
        optMessageIncludes e.message "policy" = true) →
      interpretDatabaseErrorAsProbeResult e = .DENY) ∧
    (¬(e.code = some "42501" ∨ optMessageIncludes e.message "permission denied" = true ∨
        optMessageIncludes e.message "policy" = true) →
      e.code = some "23505" → interpretDatabaseErrorAsProbeResult e = .ALLOW) ∧
    (¬(e.code = some "42501" ∨ optMessageIncludes e.message "permission denied" = true ∨
        optMessageIncludes e.message "policy" = true) →
      e.code ≠ some "23505" → interpretDatabaseErrorAsProbeResult e = .ALLOW) ∧
    (∀ (env : DbEnv) (schema table : String) (operation : DatabaseOperation)
        (jwtClaims : JwtClaims),
      env.connectErr = none → env.rollbackErr = none →
      probeBody env schema table operation jwtClaims = .error e →
      executeRlsPolicyProbeForOperation env schema table operation jwtClaims =
        .ok .ERROR) := by
  have hviol : isRlsPolicyViolationError e = true ↔
      (e.code = some "42501" ∨ optMessageIncludes e.message "permission denied" = true ∨
        optMessageIncludes e.message "policy" = true) := by
    simp only [isRlsPolicyViolationError, SQL_ERROR_CODES_PERMISSION_DENIED,
      Bool.or_eq_true, beq_iff_eq]
    tauto
  refine ⟨?_, ?_, ?_, ?_⟩
  · intro h
    simp [interpretDatabaseErrorAsProbeResult, hviol.mpr h]
  · intro h _
    have hfalse : isRlsPolicyViolationError e = false :=
      Bool.eq_false_iff.mpr (fun ht => h (hviol.mp ht))
    simp [interpretDatabaseErrorAsProbeResult, hfalse]
  · intro h _
    have hfalse : isRlsPolicyViolationError e = false :=
      Bool.eq_false_iff.mpr (fun ht => h (hviol.mp ht))
    simp [interpretDatabaseErrorAsProbeResult, hfalse]
  · intro env schema table operation jwtClaims hconnect hrollback hbody
    simp [executeRlsPolicyProbeForOperation, hconnect, hrollback, hbody]

/-- Witness for `errorClassificationMatchesSpec` at concrete errors and a
concrete environment whose `BEGIN` fails. -/
theorem errorClassificationMatchesSpecWitness :
    interpretDatabaseErrorAsProbeResult permissionDeniedError = .DENY ∧
    interpretDatabaseErrorAsProbeResult duplicateKeyError = .ALLOW ∧
    interpretDatabaseErrorAsProbeResult connectionLostError = .ALLOW ∧
    executeRlsPolicyProbeForOperation beginFailsEnv "public" "todos" .SELECT anonClaims =
      .ok .ERROR :=
  ⟨(errorClassificationMatchesSpec permissionDeniedError).1 (Or.inl rfl),
   (errorClassificationMatchesSpec duplicateKeyError).2.1 (by decide) rfl,
   (errorClassificationMatchesSpec connectionLostError).2.2.1 (by decide) (by decide),
   (errorClassificationMatchesSpec connectionLostError).2.2.2 beginFailsEnv "public"
     "todos" .SELECT anonClaims rfl rfl rfl⟩

/-- Claim C4 counterexample: the roles rejected for global DML and for CREATE
receive letter-for-letter the same error message, so the thrown rejection
error does not name the offending privilege in those two cases. -/
theorem gatekeeperErrorNamesNoPrivilege :
    shouldRejectRoleForSafetyReasons roleWithGlobalDml = true ∧
    shouldRejectRoleForSafetyReasons roleWithCreate = true ∧
    roleWithGlobalDml.has_global_dml ≠ roleWithCreate.has_global_dml ∧
    roleWithGlobalDml.has_create_privilege ≠ roleWithCreate.has_create_privilege ∧
    createUnsafeRoleError roleWithGlobalDml = createUnsafeRoleError roleWithCreate :=
  ⟨rfl, rfl, by decide, by decide, rfl⟩

/-- Claim C4, amended: the gatekeeper rejects exactly the roles with
`is_superuser`, `has_global_dml`, or `has_create_privilege`; the rejection
reason names the offending privilege only in the superuser case, while the
other two rejected cases share one generic "dangerous global privileges"
reason. -/
theorem gatekeeperRejectsExactlyUnsafeRoles (privileges : DatabaseRolePrivileges) :
    (gatekeeperAccepted (validateDatabaseRolePrivileges privileges) = false ↔
      (privileges.is_superuser = true ∨ privileges.has_global_dml = true ∨
        privileges.has_create_privilege = true)) ∧
    (privileges.is_superuser = true → unsafeRoleReason privileges = "it is a superuser.") ∧
    (privileges.is_superuser = false →
      unsafeRoleReason privileges = "it has dangerous global privileges.") := by
  have hiff : shouldRejectRoleForSafetyReasons privileges = true ↔
      (privileges.is_superuser = true ∨ privileges.has_global_dml = true ∨
        privileges.has_create_privilege = true) := by
    simp only [shouldRejectRoleForSafetyReasons, Bool.or_eq_true]
    tauto
  refine ⟨?_, ?_, ?_⟩
  · unfold validateDatabaseRolePrivileges
    rcases hb : shouldRejectRoleForSafetyReasons privileges with _ | _
    · rw [if_neg (by simp [hb])]
      simp only [gatekeeperAccepted]
      constructor
      · intro h
        simp at h
      · intro h
        rw [← hiff, hb] at h
        simp at h
    · rw [if_pos (by simp [hb])]
      simp only [gatekeeperAccepted]
      constructor
      · intro _
        exact hiff.mp hb
      · intro _
        trivial
  · intro h
    simp [unsafeRoleReason, h]
  · intro h
    simp [unsafeRoleReason, h]

/-- Witness for `gatekeeperRejectsExactlyUnsafeRoles` at a superuser role and
at a global-DML role. -/
theorem gatekeeperRejectsExactlyUnsafeRolesWitness :
    superuserRole.is_superuser = true ∧
    unsafeRoleReason superuserRole = "it is a superuser." ∧
    roleWithGlobalDml.is_superuser = false ∧
    unsafeRoleReason roleWithGlobalDml = "it has dangerous global privileges." :=
  ⟨rfl, (gatekeeperRejectsExactlyUnsafeRoles superuserRole).2.1 rfl, rfl,
   (gatekeeperRejectsExactlyUnsafeRoles roleWithGlobalDml).2.2 rfl⟩

/-- Claim C7: the `ALWAYS_TRUE_USING` check emits a CRITICAL issue exactly
when the USING expression, after trimming, is literally `true` or `(true)`;
a policy with no USING expression never fires it. -/
theorem alwaysTrueUsingFiresIff (policy : PolicyLintData) :
    (alwaysTrueUsingCheck policy).map LintIssue.severity =
      (if policy.using_expression.map String.trim = some "true" ∨
          policy.using_expression.map String.trim = some "(true)"
        then some LintSeverity.CRITICAL else none) := by
  cases h : policy.using_expression with
  | none => simp [alwaysTrueUsingCheck, h]
  | some e =>
      simp only [alwaysTrueUsingCheck, h, Option.map_some']
      by_cases ht : e.trim = "true" ∨ e.trim = "(true)"
      · rw [if_pos ht, if_pos (by simpa using ht)]
        rfl
      · rw [if_neg ht, if_neg (by simpa using ht)]
        rfl

/-- Claim C8 counterexample: a SELECT policy with no USING expression does
fire `NO_AUTH_UID_CHECK` (the code defaults the absent expression to the
empty string, which contains no `auth.uid()` and is not literally true),
contrary to the claim that such a policy never fires it. -/
theorem noAuthUidFiresOnMissingUsing :
    selectPolicyWithoutUsing.command = "SELECT" ∧
    selectPolicyWithoutUsing.using_expression = none ∧
    (noAuthUidCheck selectPolicyWithoutUsing).isSome = true :=
  ⟨rfl, rfl, rfl⟩

/-- Claim C8, amended: `NO_AUTH_UID_CHECK` emits a HIGH issue exactly when
the command is SELECT, the USING expression (defaulted to the empty string
when absent) is not literally `true` or `(true)`, and the substring
`auth.uid()` is absent from it; in particular a SELECT policy with no USING
expression does fire it. -/
theorem noAuthUidFiresIff (policy : PolicyLintData) :
    (noAuthUidCheck policy).map LintIssue.severity =
      (if policy.command = "SELECT" ∧
          strIncludes (policy.using_expression.getD "") "auth.uid()" = false ∧
          policy.using_expression.getD "" ≠ "true" ∧
          policy.using_expression.getD "" ≠ "(true)"
        then some LintSeverity.HIGH else none) := by
  by_cases hc : policy.command = "SELECT"
  · have hne : ¬policy.command ≠ "SELECT" := fun hcontra => hcontra hc
    unfold noAuthUidCheck
    rw [if_neg hne]
    by_cases hfire : strIncludes (policy.using_expression.getD "") "auth.uid()" = false ∧
        policy.using_expression.getD "" ≠ "true" ∧ policy.using_expression.getD "" ≠ "(true)"
    · rw [if_pos hfire, if_pos ⟨hc, hfire⟩]
      rfl
    · rw [if_neg hfire, if_neg (fun hcontra => hfire hcontra.2)]
      rfl
  · unfold noAuthUidCheck
    rw [if_pos hc, if_neg (fun hcontra => hc hcontra.1)]
    rfl

/-- Claim C9: the conversion of probe outcomes into `TestResult` records does
make `SKIPPED` results never pass, but the spec's separate `skipped` counter
is never incremented: `updateTestCounters` files a `SKIPPED` result under
`failed_tests` and leaves `skipped_tests` at 0.  This theorem evaluates the
orchestrator on a scenario whose single UPDATE probe is skipped. -/
theorem skippedResultCountedAsFailed :
    (executeTestScenarioForAllOperations skippedProbeEnv "public" "nopk" nopkScenario
        SUPPORTED_DATABASE_OPERATIONS).map (fun d => (d.actual, d.passed)) =
      [(DetailedProbeResult.SKIPPED, false)] ∧
    (aggregateTestCounters
        (executeTestScenarioForAllOperations skippedProbeEnv "public" "nopk" nopkScenario
          SUPPORTED_DATABASE_OPERATIONS)).failed_tests = 1 ∧
    (aggregateTestCounters
        (executeTestScenarioForAllOperations skippedProbeEnv "public" "nopk" nopkScenario
          SUPPORTED_DATABASE_OPERATIONS)).skipped_tests = 0 ∧
    (aggregateTestCounters
        (executeTestScenarioForAllOperations skippedProbeEnv "public" "nopk" nopkScenario
          SUPPORTED_DATABASE_OPERATIONS)).passed_tests = 0 ∧
    (aggregateTestCounters
        (executeTestScenarioForAllOperations skippedProbeEnv "public" "nopk" nopkScenario
          SUPPORTED_DATABASE_OPERATIONS)).error_tests = 0 :=
  ⟨rfl, rfl, rfl, rfl, rfl⟩

/-- Claim C5: `compareSnapshots` classifies each current entry as
newly-introduced when the previous snapshot has no outcome at its key, as a
leak when the previous outcome is `DENY` and the current one `ALLOW`, as a
regression for every other change, and ignores unchanged entries; and
`isIdentical` holds exactly when all three buckets are empty. -/
theorem compareSnapshotsBucketClassification (previous current : PolicySnapshot) :
    (compareSnapshots previous current).newlyIntroduced =
        (snapshotEntries current).filterMap (newEntryMessage previous) ∧
    (compareSnapshots previous current).leaks =
        (snapshotEntries current).filterMap (leakEntryMessage previous) ∧
    (compareSnapshots previous current).regressions =
        (snapshotEntries current).filterMap (regressionEntryMessage previous) ∧
    ((compareSnapshots previous current).isIdentical = true ↔
      (compareSnapshots previous current).leaks = [] ∧
      (compareSnapshots previous current).regressions = [] ∧
      (compareSnapshots previous current).newlyIntroduced = []) := by
  refine ⟨compareSnapshots_newlyIntroduced previous current,
    compareSnapshots_leaks previous current,
    compareSnapshots_regressions previous current, ?_⟩
  rw [compareSnapshots_isIdentical, compareSnapshots_leaks, compareSnapshots_regressions,
    compareSnapshots_newlyIntroduced, List.all_eq_true, List.filterMap_eq_nil_iff,
    List.filterMap_eq_nil_iff, List.filterMap_eq_nil_iff]
  constructor
  · intro hall
    refine ⟨fun a ha => ?_, fun a ha => ?_, fun a ha => ?_⟩ <;>
      have hu := (entryUnchanged_iff previous a).mp (hall a ha)
    · exact hu.2.1
    · exact hu.2.2
    · exact hu.1
  · intro hcond a ha
    exact (entryUnchanged_iff previous a).mpr
      ⟨hcond.2.2 a ha, hcond.1 a ha, hcond.2.1 a ha⟩

/-- Claim C6: for keys present in both snapshots with outcome `DENY` in `A`
and `ALLOW` in `B`, being reported as a leak by `compareSnapshots A B`
coincides with being reported as a regression (an `ALLOW` to `DENY` change)
by `compareSnapshots B A`. -/
theorem diffLeakRegressionAntisymmetry (A B : PolicySnapshot)
    (tableKey scenarioName : String) (op : DatabaseOperation)
    (hA : lookupOutcome A tableKey scenarioName op = some .DENY)
    (hB : lookupOutcome B tableKey scenarioName op = some .ALLOW) :
    (entryMessage tableKey scenarioName op ++ " (changed from DENY to ALLOW)") ∈
        (compareSnapshots A B).leaks ↔
      (entryMessage tableKey scenarioName op ++ " (changed from ALLOW to DENY)") ∈
        (compareSnapshots B A).regressions := by
  have hleak : (entryMessage tableKey scenarioName op ++ " (changed from DENY to ALLOW)") ∈
      (compareSnapshots A B).leaks := by
    rw [compareSnapshots_leaks]
    refine List.mem_filterMap.mpr ⟨(tableKey, scenarioName, op, .ALLOW),
      lookupOutcome_mem B tableKey scenarioName op .ALLOW hB, ?_⟩
    simp [leakEntryMessage, hA]
  have hreg : (entryMessage tableKey scenarioName op ++ " (changed from ALLOW to DENY)") ∈
      (compareSnapshots B A).regressions := by
    rw [compareSnapshots_regressions]
    refine List.mem_filterMap.mpr ⟨(tableKey, scenarioName, op, .DENY),
      lookupOutcome_mem A tableKey scenarioName op .DENY hA, ?_⟩
    simp only [regressionEntryMessage, hB]
    rw [if_pos (by simp)]
    simp only [probeResultName, Option.some_inj]
    rw [String.append_assoc, String.append_assoc, String.append_assoc,
      String.append_assoc]
    rfl
  exact ⟨fun _ => hreg, fun _ => hleak⟩

/-- Witness for `diffLeakRegressionAntisymmetry` at a concrete pair of
snapshots. -/
theorem diffLeakRegressionAntisymmetryWitness :
    lookupOutcome snapshotPostsDeny "public.posts" "anonymous" .SELECT = some .DENY ∧
    lookupOutcome snapshotPostsAllow "public.posts" "anonymous" .SELECT = some .ALLOW ∧
    ((entryMessage "public.posts" "anonymous" .SELECT ++ " (changed from DENY to ALLOW)") ∈
        (compareSnapshots snapshotPostsDeny snapshotPostsAllow).leaks ↔
      (entryMessage "public.posts" "anonymous" .SELECT ++ " (changed from ALLOW to DENY)") ∈
        (compareSnapshots snapshotPostsAllow snapshotPostsDeny).regressions) :=
  ⟨rfl, rfl,
    diffLeakRegressionAntisymmetry snapshotPostsDeny snapshotPostsAllow "public.posts"
      "anonymous" .SELECT rfl rfl⟩

/-- Claim C10: `compareSnapshots` depends on the previous snapshot only at
the keys of the current snapshot - replacing the previous snapshot by its
restriction to the current keys yields an identical comparison result, so
entries present only in the previous snapshot contribute to no bucket. -/
theorem compareSnapshotsRestrictionIrrelevance (previous current : PolicySnapshot)
    (hwf : wellFormedSnapshot current) :
    compareSnapshots (restrictToCurrentKeys previous current) current =
      compareSnapshots previous current := by
  rw [compareSnapshots_eq_foldl_entries, compareSnapshots_eq_foldl_entries]
  apply compareStep_foldl_congr
  intro e he
  apply lookupOutcome_restrict
  rw [lookupOutcome_of_entry current hwf he]
  rfl

/-- Witness for `compareSnapshotsRestrictionIrrelevance` at a previous
snapshot holding a stale table and a stale operation. -/
theorem compareSnapshotsRestrictionIrrelevanceWitness :
    wellFormedSnapshot snapshotPostsAllow ∧
    compareSnapshots (restrictToCurrentKeys snapshotWithStaleEntries snapshotPostsAllow)
        snapshotPostsAllow =
      compareSnapshots snapshotWithStaleEntries snapshotPostsAllow :=
  ⟨by decide,
    compareSnapshotsRestrictionIrrelevance snapshotWithStaleEntries snapshotPostsAllow
      (by decide)⟩

end Supashield
